import Mathlib

/-!
Verification of the service-worker caching core of `indiekit-frontend`
(`src/lib/serviceworker.js`).

The JavaScript is event-driven and asynchronous, but every handler is a
straight-line sequence of awaits whose only interactions with the outside
world are cache reads/writes, network fetches, timers and client messages.
We embed each handler as a pure function from an explicit environment
(outcomes of the external operations: cache contents, fetch results,
whether the network settles before the 5000 ms timer, whether a cache
write succeeds) to its observable outcome (the response handed to
`respondWith`, the new cache contents, counters and event traces).
-/

namespace SW

/-! ### Constants (serviceworker.js lines 1-9) -/

def assetCacheName : String := "assets-APP_VERSION"

def pagesCacheName : String := "pages"

def imageCacheName : String := "images"

def maxPages : Nat := 50

def maxImages : Nat := 100

def timeoutMs : Nat := 5000

def cacheList : List String := [assetCacheName, pagesCacheName, imageCacheName]

def placeholderImage : String := "<svg xmlns=\"http://www.w3.org/2000/svg\"><defs><path id=\"icon\" fill=\"#AAA\" d=\"M24 32a5 5 0 1 1 0 10 5 5 0 0 1 0-10Zm-6.9-11.9 4.1 4.1a17 17 0 0 0-9.7 5.3L8 26a22 22 0 0 1 9-6Zm22.5 5.4L36 29l-.8-.8L26 19a22 22 0 0 1 13.5 6.4ZM8.2 11.2l3.7 3.7a24.7 24.7 0 0 0-8.4 6.6l-3.6-3.6c2.4-2.7 5.2-5 8.3-6.7ZM24 7a32 32 0 0 1 23.4 10.2l-3.5 3.6a27 27 0 0 0-24.5-8.4l-4.2-4.2A32 32 0 0 1 24 7ZM2 5l3-3 41 41-3 3L2 5Z\" opacity=\".7\"/>\n</defs><rect fill=\"#000\" width=\"100%\" height=\"100%\" opacity=\"0.075\"/><use href=\"#icon\" x=\"50%\" y=\"50%\" transform=\"translate(-24 -24)\"/></svg>"

/-! ### Responses

A captured response: status, status text, `Content-Type` and
`Cache-Control` headers, body. `new Response(body, init)` defaults to
status 200 with empty status text. -/

structure Response where
  body : String
  status : Nat
  statusText : String
  contentType : String
  cacheControl : String
deriving DecidableEq, Repr

/-- Synthesized `new Response("Offline", {status: 503, ...})`, navigation branch (lines 207-211). -/
def offlineResponse : Response :=
  ⟨"Offline", 503, "Service Unavailable", "text/plain", ""⟩

/-- Synthesized `new Response("Network error", {status: 503, ...})` (hashed-asset and generic branches). -/
def networkErrorResponse : Response :=
  ⟨"Network error", 503, "Service Unavailable", "text/plain", ""⟩

/-- Synthesized `new Response(placeholderImage, {headers: ...})` (generic branch, lines 294-299). -/
def placeholderResponse : Response :=
  ⟨placeholderImage, 200, "", "image/svg+xml", "no-store"⟩

instance {ε α : Type} [DecidableEq ε] [DecidableEq α] : DecidableEq (Except ε α) :=
  fun a b =>
    match a, b with
    | Except.ok x, Except.ok y =>
        if h : x = y then isTrue (by rw [h]) else isFalse (by simp [h])
    | Except.error x, Except.error y =>
        if h : x = y then isTrue (by rw [h]) else isFalse (by simp [h])
    | Except.ok _, Except.error _ => isFalse (by simp)
    | Except.error _, Except.ok _ => isFalse (by simp)

/-! ### String matching helpers

The service worker tests URLs with two regular expressions and one
`String.prototype.includes` call.  We embed the matching over character
lists. -/

/-- Does `cs` begin with the pattern `pat`? -/
def listStartsWith : List Char → List Char → Bool
  | [], _ => true
  | _ :: _, [] => false
  | p :: ps, c :: cs => p == c && listStartsWith ps cs

/-- Does the pattern `pat` occur at some position of `cs` (an unanchored
regex/`includes` search)? -/
def occursIn (pat : List Char) : List Char → Bool
  | [] => listStartsWith pat []
  | c :: cs => listStartsWith pat (c :: cs) || occursIn pat cs

/-- The character class `[a-f0-9]` of the hashed-asset regex. -/
def isLowerHexDigit (c : Char) : Bool :=
  c.isDigit || (97 ≤ c.toNat && c.toNat ≤ 102)

def hashedAssetStem : String := "/assets/app-"

/-- Does `url` end with `stem` + one-or-more `[a-f0-9]` + `ext`?
Matching the end-anchored regex from the right: strip the extension,
take the maximal hex run, and require the literal stem right before it
(the stem ends in `-`, which is not a hex digit, so maximal munch is
exact). -/
def matchesHashedEnd (ext : String) (url : String) : Bool :=
  let r := url.data.reverse
  let re := ext.data.reverse
  if listStartsWith re r then
    let rest := r.drop re.length
    let hex := rest.takeWhile isLowerHexDigit
    !hex.isEmpty && listStartsWith hashedAssetStem.data.reverse (rest.drop hex.length)
  else false

/-- Source test `/\/assets\/app-[a-f0-9]+\.(js|css)$/.test(url)` (line 17). -/
def isHashedAsset (url : String) : Bool :=
  matchesHashedEnd ".js" url || matchesHashedEnd ".css" url

/-! The image regex `/\.(jpe?g|png|gif|svg|webp)/` (lines 261, 293, 314):
unanchored; at some position a `.` must be followed by one of the
alternatives (`jpe?g` expands to `jpg` or `jpeg`). -/

def extJpg : List Char := ['j', 'p', 'g']

def extJpeg : List Char := ['j', 'p', 'e', 'g']

def extPng : List Char := ['p', 'n', 'g']

def extGif : List Char := ['g', 'i', 'f']

def extSvg : List Char := ['s', 'v', 'g']

def extWebp : List Char := ['w', 'e', 'b', 'p']

/-- The alternation `(jpe?g|png|gif|svg|webp)` tried after a literal `.`. -/
def imageExtAfterDot (cs : List Char) : Bool :=
  listStartsWith extJpg cs || listStartsWith extJpeg cs ||
  listStartsWith extPng cs || listStartsWith extGif cs ||
  listStartsWith extSvg cs || listStartsWith extWebp cs

/-- Regex scan: try `\.(jpe?g|png|gif|svg|webp)` at every position. -/
def isImageUrlAux : List Char → Bool
  | [] => false
  | c :: cs => (c == '.' && imageExtAfterDot cs) || isImageUrlAux cs

/-- Source test `/\.(jpe?g|png|gif|svg|webp)/.test(url)` — the test deciding both the
images-cache store and the placeholder fallback in the generic branch. -/
def isImageUrl (url : String) : Bool :=
  isImageUrlAux url.data

def patDotJpg : List Char := ['.', 'j', 'p', 'g']

def patDotJpeg : List Char := ['.', 'j', 'p', 'e', 'g']

def patDotPng : List Char := ['.', 'p', 'n', 'g']

def patDotGif : List Char := ['.', 'g', 'i', 'f']

def patDotSvg : List Char := ['.', 's', 'v', 'g']

def patDotWebp : List Char := ['.', 'w', 'e', 'b', 'p']

/-- The spec's reading of the image test: one of the substrings
`.jpg` `.jpeg` `.png` `.gif` `.svg` `.webp` occurs anywhere in the URL
(not anchored to the end). -/
def isImageUrlSpec (url : String) : Bool :=
  occursIn patDotJpg url.data || occursIn patDotJpeg url.data ||
  occursIn patDotPng url.data || occursIn patDotGif url.data ||
  occursIn patDotSvg url.data || occursIn patDotWebp url.data

/-! ### Cache contents

A cache is its entries in insertion order: request URL paired with the
stored response.  `Cache.put` overwrites any entry stored for the same
request and appends the new one. -/

def lookupCache : List (String × Response) → String → Option Response
  | [], _ => none
  | e :: es, url => if e.1 == url then some e.2 else lookupCache es url

def cachePut (cache : List (String × Response)) (url : String) (r : Response) :
    List (String × Response) :=
  cache.filter (fun e => e.1 != url) ++ [(url, r)]

/-! ### Request router (fetch listener, lines 146-166, 222, 252) -/

structure Request where
  url : String
  method : String
  mode : String
  acceptHeader : String
  sameOrigin : Bool
deriving DecidableEq, Repr

def textHtml : List Char := "text/html".data

/-- Source test `request.mode === "navigate" || (request.headers.get("Accept") || "").includes("text/html")`. -/
def isNavigationRequest (req : Request) : Bool :=
  req.mode == "navigate" || occursIn textHtml req.acceptHeader.data

inductive Strategy where
  | notIntercepted
  | navigation
  | immutableAsset
  | generic
deriving DecidableEq, Repr

/-- The fetch listener's dispatch: bypass cross-origin and non-GET
requests, then navigation, then hashed assets, else the generic
stale-while-revalidate branch. -/
def chooseStrategy (req : Request) : Strategy :=
  if !req.sameOrigin || req.method != "GET" then Strategy.notIntercepted
  else if isNavigationRequest req then Strategy.navigation
  else if isHashedAsset req.url then Strategy.immutableAsset
  else Strategy.generic

/-! ### Navigation strategy (lines 167-218) -/

/-- External outcomes a navigation interception depends on:
`caches.match(request)`, `caches.match("/offline")`, the settled value
of the preload-or-fetch promise (`Except.error` = rejection), whether
the network settles before the 5000 ms timer, and whether the
pages-cache `open`/`put` succeeds. -/
structure NavEnv where
  cachedResponse : Option Response
  offlinePage : Option Response
  networkResult : Except Unit Response
  networkBeforeTimeout : Bool
  cacheWriteOk : Bool
deriving DecidableEq, Repr

/-- Lines 180-190: with a cached fallback the network fetch is raced
against the rejecting 5000 ms timer; without one it is awaited directly. -/
def navigationRace (env : NavEnv) : Except Unit Response :=
  match env.cachedResponse with
  | some _ => if env.networkBeforeTimeout then env.networkResult else Except.error ()
  | none => env.networkResult

structure NavOutcome where
  response : Response
  timerStarted : Bool
  loggedCacheWriteError : Bool
deriving DecidableEq, Repr

/-- The navigation branch body: on race success, the pages-cache write is
attempted inside its own try/catch (failure only logged) and the network
response returned; on race failure, cached entry, else `/offline` entry,
else a synthesized 503. -/
def navigationRespond (env : NavEnv) : NavOutcome :=
  match navigationRace env with
  | Except.ok r =>
      { response := r
        timerStarted := env.cachedResponse.isSome
        loggedCacheWriteError := !env.cacheWriteOk }
  | Except.error _ =>
      { response :=
          match env.cachedResponse with
          | some c => c
          | none =>
            match env.offlinePage with
            | some o => o
            | none => offlineResponse
        timerStarted := env.cachedResponse.isSome
        loggedCacheWriteError := false }

/-! ### Immutable-asset strategy (lines 222-248) -/

structure HashedOutcome where
  response : Response
  cache : List (String × Response)
  fetchCount : Nat
deriving DecidableEq, Repr

/-- The hashed-asset branch body over the assets cache: cached entry wins
with no fetch; otherwise fetch, then `caches.open`/`put` — note both the
fetch AND the put sit in the same try, whose catch returns the
synthesized 503. -/
def hashedAssetRespond (cache : List (String × Response)) (url : String)
    (networkResult : Except Unit Response) (cacheWriteOk : Bool) : HashedOutcome :=
  match lookupCache cache url with
  | some r => ⟨r, cache, 0⟩
  | none =>
    match networkResult with
    | Except.ok r =>
        if cacheWriteOk then ⟨r, cachePut cache url r, 1⟩
        else ⟨networkErrorResponse, cache, 1⟩
    | Except.error _ => ⟨networkErrorResponse, cache, 1⟩

/-! ### Generic strategy (lines 250-331) -/

structure GenericEnv where
  cachedResponse : Option Response
  networkResult : Except Unit Response
  cacheWriteOk : Bool
deriving DecidableEq, Repr

structure GenericOutcome where
  response : Response
  storedToImages : Bool
  loggedCacheWriteError : Bool
deriving DecidableEq, Repr

/-- The generic branch body: the background fetch always runs; on fetch
success an image-matching URL is stored into `images` inside its own
try/catch (failure only logged); a cache hit is served immediately; a
miss awaits the fetch, and on total failure image URLs get the
placeholder, others the synthesized 503. -/
def genericRespond (url : String) (env : GenericEnv) : GenericOutcome :=
  let stored :=
    match env.networkResult with
    | Except.ok _ => isImageUrl url && env.cacheWriteOk
    | Except.error _ => false
  let logged :=
    match env.networkResult with
    | Except.ok _ => isImageUrl url && !env.cacheWriteOk
    | Except.error _ => false
  match env.cachedResponse with
  | some c => ⟨c, stored, logged⟩
  | none =>
    match env.networkResult with
    | Except.ok r => ⟨r, stored, logged⟩
    | Except.error _ =>
        if isImageUrl url then ⟨placeholderResponse, false, false⟩
        else ⟨networkErrorResponse, false, false⟩

/-! ### Cache trimmer (trimCache, lines 95-107)

`trimCache` re-reads the key list, and while it is longer than
`maxItems` deletes the first (oldest-inserted) key and recurses. -/

def trimCache {α : Type} : List α → Nat → List α
  | [], _ => []
  | k :: ks, maxItems =>
      if ks.length + 1 > maxItems then trimCache ks maxItems else k :: ks

/-! ### Garbage collection and activation (lines 65-88, 119-131) -/

/-- Names surviving `clearOldCaches`: deletion of every name outside
`cacheList` keeps exactly the names in it (nothing is created). -/
def clearOldCaches (existing : List String) : List String :=
  existing.filter (fun k => cacheList.contains k)

/-- Names `clearOldCaches` passes to `caches.delete`, in order. -/
def clearOldCachesDeleted (existing : List String) : List String :=
  existing.filter (fun k => !cacheList.contains k)

def swUpdatedCommand : String := "SW_UPDATED"

/-- JS `String.prototype.replace` with a string pattern: replace the
first occurrence of `pat` by `repl`. -/
def replaceFirst (pat repl : List Char) : List Char → List Char
  | [] => []
  | c :: cs =>
      if listStartsWith pat (c :: cs) then repl ++ (c :: cs).drop pat.length
      else c :: replaceFirst pat repl cs

/-- Source expression `assetCacheName.replace("assets-", "")` (line 83). -/
def swVersion : String :=
  ⟨replaceFirst "assets-".data [] assetCacheName.data⟩

inductive SWEvent where
  | cacheDeleted (name : String)
  | clientsClaimed
  | posted (clientUrl : String) (command : String) (version : String)
deriving DecidableEq, Repr

/-- Embeds `notifyClients`: posts `{command: "SW_UPDATED", version}` to every
client (lines 82-88). -/
def notifyClients (clientUrls : List String) : List SWEvent :=
  clientUrls.map (fun c => SWEvent.posted c swUpdatedCommand swVersion)

/-- Observable event order of the activate handler (lines 119-131):
`await clearOldCaches(); await clients.claim(); await notifyClients();`. -/
def activateTrace (existingCaches : List String) (clientUrls : List String) :
    List SWEvent :=
  (clearOldCachesDeleted existingCaches).map SWEvent.cacheDeleted ++
    SWEvent.clientsClaimed :: notifyClients clientUrls

def isDeletedEvent : SWEvent → Bool
  | SWEvent.cacheDeleted _ => true
  | _ => false

/-- Does some broadcast occur strictly before the `clients.claim()` call? -/
def broadcastPrecedesClaim : List SWEvent → Bool
  | [] => false
  | SWEvent.cacheDeleted _ :: rest => broadcastPrecedesClaim rest
  | SWEvent.clientsClaimed :: _ => false
  | SWEvent.posted _ _ _ :: _ => true

/-- Does some cache deletion occur strictly after the `clients.claim()` call? -/
def deletionFollowsClaim : List SWEvent → Bool
  | [] => false
  | SWEvent.clientsClaimed :: rest => rest.any isDeletedEvent
  | SWEvent.cacheDeleted _ :: rest => deletionFollowsClaim rest
  | SWEvent.posted _ _ _ :: rest => deletionFollowsClaim rest

/-- Number of `SW_UPDATED` messages a given client receives in a trace. -/
def postedCountFor (c : String) (t : List SWEvent) : Nat :=
  t.countP (fun e => decide (e = SWEvent.posted c swUpdatedCommand swVersion))

/-! ### Installation (updateAssetCache and the install listener,
lines 24-38, 44-60, 109-117) -/

def appCssPath : String := "APP_CSS_PATH"

def appJsPath : String := "APP_JS_PATH"

/-- Source call `assetCache.addAll(["/app.webmanifest"])` — not awaited. -/
def optionalAssets : List String := ["/app.webmanifest"]

/-- Source call `await assetCache.addAll(["APP_CSS_PATH", "APP_JS_PATH", "/offline"])`. -/
def requiredAssets : List String := [appCssPath, appJsPath, "/offline"]

/-- Cache `addAll` resolves iff every listed fetch-and-store succeeds. -/
def addAllOk (fetchOk : String → Bool) (urls : List String) : Bool :=
  urls.all fetchOk

/-- Embeds `updateAssetCache` as written: the awaited required `addAll` sits in
a try whose catch logs the error, so the function always resolves; the
Bool payload records whether the catch ran. -/
def updateAssetCacheRun (fetchOk : String → Bool) : Except String Bool :=
  if addAllOk fetchOk requiredAssets then Except.ok false else Except.ok true

structure InstallOutcome where
  installRejected : Bool
  skipWaitingCalled : Bool
  loggedAssetError : Bool
deriving DecidableEq, Repr

/-- The install listener body: `await updateAssetCache()`, then
`cacheClients()` (also fully try/catch-wrapped), then `skipWaiting()`.
Were `updateAssetCache` to reject, `event.waitUntil` would receive a
rejected promise and installation would fail before `skipWaiting`. -/
def installRun (fetchOk : String → Bool) : InstallOutcome :=
  match updateAssetCacheRun fetchOk with
  | Except.ok logged => ⟨false, true, logged⟩
  | Except.error _ => ⟨true, false, false⟩

/-! ### Example values used by witnesses -/

def pageResponseEx : Response := ⟨"<html>cached</html>", 200, "OK", "text/html", ""⟩

def freshPageEx : Response := ⟨"<html>fresh</html>", 200, "OK", "text/html", ""⟩

def offlinePageEx : Response := ⟨"<html>offline</html>", 200, "OK", "text/html", ""⟩

def cssResponseEx : Response := ⟨"asset-bytes", 200, "OK", "text/css", ""⟩

def hashedUrlEx : String := "/assets/app-0a1b.css"

def hashedUrlJsEx : String := "/assets/app-c3d4.js"

def clientUrlEx : String := "https://site.example/notes"

/-! ### Helper lemmas -/

theorem trimCache_eq_drop {α : Type} :
    ∀ (entries : List α) (maxItems : Nat),
      trimCache entries maxItems = entries.drop (entries.length - maxItems) := by
  intro entries maxItems
  induction entries with
  | nil => simp [trimCache]
  | cons k ks ih =>
      by_cases h : ks.length + 1 > maxItems
      · have h1 : (k :: ks).length - maxItems = (ks.length - maxItems) + 1 := by
          simp only [List.length_cons]
          omega
        simp only [trimCache, if_pos h, ih, h1, List.drop_succ_cons]
      · have h1 : (k :: ks).length - maxItems = 0 := by
          simp only [List.length_cons]
          omega
        simp only [trimCache, if_neg h, h1, List.drop_zero]

theorem lookupCache_cachePut (cache : List (String × Response)) (url : String)
    (r : Response) : lookupCache (cachePut cache url r) url = some r := by
  induction cache with
  | nil => simp [cachePut, lookupCache]
  | cons e es ih =>
      by_cases h : e.1 = url
      · simpa [cachePut, List.filter_cons, h, lookupCache] using ih
      · simpa [cachePut, List.filter_cons, h, lookupCache] using ih

/-- Claim C4: for a cache of `M` entries with `M > N`, `trimCache` leaves
exactly the `N` most-recently-inserted entries (the suffix), and the
`M − N` oldest (the prefix, first in key-enumeration order) are the ones
removed. -/
theorem trimCacheEvictsOldest {α : Type} (entries : List α) (maxItems : Nat)
    (h : entries.length > maxItems) :
    trimCache entries maxItems = entries.drop (entries.length - maxItems) ∧
    (trimCache entries maxItems).length = maxItems ∧
    entries = entries.take (entries.length - maxItems) ++ trimCache entries maxItems := by
  refine ⟨trimCache_eq_drop entries maxItems, ?_, ?_⟩
  · rw [trimCache_eq_drop, List.length_drop]
    omega
  · rw [trimCache_eq_drop]
    exact (List.take_append_drop _ _).symm

theorem trimCacheEvictsOldest_witness :
    trimCache [10, 20, 30] 1 = [10, 20, 30].drop ([10, 20, 30].length - 1) ∧
    (trimCache [10, 20, 30] 1).length = 1 ∧
    [10, 20, 30] = [10, 20, 30].take ([10, 20, 30].length - 1) ++ trimCache [10, 20, 30] 1 :=
  trimCacheEvictsOldest [10, 20, 30] 1 (by decide)

/-- Claim C9: when the cache holds at most `maxItems` entries, `trimCache`
deletes nothing — keys and stored responses are returned unchanged. -/
theorem trimCacheNoOpWhenWithinBound {α : Type} (entries : List α) (maxItems : Nat)
    (h : entries.length ≤ maxItems) : trimCache entries maxItems = entries := by
  rw [trimCache_eq_drop, Nat.sub_eq_zero_of_le h, List.drop_zero]

theorem trimCacheNoOpWhenWithinBound_witness :
    trimCache [("/notes/1", pageResponseEx)] maxPages = [("/notes/1", pageResponseEx)] :=
  trimCacheNoOpWhenWithinBound [("/notes/1", pageResponseEx)] maxPages (by decide)

/-- Claim C5 (counterexample): garbage collection only deletes; it never
creates missing members of the valid set.  On the realistic first
activation — the install step opened only the assets and pages caches,
no image has been cached yet — the post-GC name set lacks `"images"`,
so it is not "exactly" the valid triple. -/
theorem clearOldCachesNotExhaustive :
    imageCacheName ∈ cacheList ∧
    clearOldCaches [assetCacheName, pagesCacheName] = [assetCacheName, pagesCacheName] ∧
    ¬ imageCacheName ∈ clearOldCaches [assetCacheName, pagesCacheName] := by
  decide

/-- Claim C5 (amended): after `clearOldCaches`, a cache name exists iff it
existed before AND belongs to the valid set {assets, pages, images};
every invalid pre-existing name is deleted, no valid name is deleted,
and no name is created. -/
theorem clearOldCachesMembership (existing : List String) (k : String) :
    (k ∈ clearOldCaches existing ↔ (k ∈ existing ∧ k ∈ cacheList)) ∧
    (k ∈ clearOldCachesDeleted existing ↔ (k ∈ existing ∧ ¬ k ∈ cacheList)) := by
  constructor
  · simp [clearOldCaches, List.mem_filter]
  · simp [clearOldCachesDeleted, List.mem_filter]

/-- Claim C1 (code bug): the required `addAll` rejection is swallowed by the
try/catch inside `updateAssetCache`, so with `APP_CSS_PATH` failing —
a required manifest URL — installation still completes, `skipWaiting()`
still runs, and the failure is merely logged, contradicting the code's
own comment that these items "must be cached for service worker to
complete installation". -/
theorem installCompletesDespiteRequiredFetchFailure :
    requiredAssets.contains appCssPath = true ∧
    installRun (fun u => u != appCssPath) = ⟨false, true, true⟩ := by
  decide

/-- Claim C3: with a cached entry the navigation fetch is raced against the
fixed 5000 ms rejecting timer and the first to settle decides; with no
cached entry no timer is started and the outcome is determined by the
network result alone, independently of the timer flag. -/
theorem navigationConditionalTimeout :
    (∀ (env : NavEnv) (c : Response), env.cachedResponse = some c →
        (navigationRespond env).timerStarted = true ∧
        navigationRace env =
          (if env.networkBeforeTimeout then env.networkResult else Except.error ())) ∧
    (∀ (offline : Option Response) (net : Except Unit Response) (b b' w : Bool),
        (navigationRespond ⟨none, offline, net, b, w⟩).timerStarted = false ∧
        navigationRace ⟨none, offline, net, b, w⟩ = net ∧
        navigationRespond ⟨none, offline, net, b, w⟩ =
          navigationRespond ⟨none, offline, net, b', w⟩) := by
  constructor
  · intro env c h
    constructor
    · cases hr : navigationRace env <;> simp [navigationRespond, hr, h]
    · simp [navigationRace, h]
  · intro offline net b b' w
    refine ⟨?_, rfl, ?_⟩ <;> cases net <;> rfl

theorem navigationConditionalTimeout_witness :
    ((navigationRespond ⟨some pageResponseEx, none, Except.ok freshPageEx, true, true⟩).timerStarted = true ∧
      navigationRace ⟨some pageResponseEx, none, Except.ok freshPageEx, true, true⟩ =
        (if (NavEnv.mk (some pageResponseEx) none (Except.ok freshPageEx) true true).networkBeforeTimeout
         then (NavEnv.mk (some pageResponseEx) none (Except.ok freshPageEx) true true).networkResult
         else Except.error ())) ∧
    ((navigationRespond ⟨none, none, Except.ok freshPageEx, false, true⟩).timerStarted = false ∧
      navigationRace ⟨none, none, Except.ok freshPageEx, false, true⟩ = Except.ok freshPageEx ∧
      navigationRespond ⟨none, none, Except.ok freshPageEx, false, true⟩ =
        navigationRespond ⟨none, none, Except.ok freshPageEx, true, true⟩) :=
  ⟨navigationConditionalTimeout.1 ⟨some pageResponseEx, none, Except.ok freshPageEx, true, true⟩
      pageResponseEx rfl,
   navigationConditionalTimeout.2 none (Except.ok freshPageEx) false true true⟩

/-- Claim C7: when the navigation fetch fails or loses the race, the response
is the cached entry, else the precached `/offline` entry, else the
synthesized 503 plain-text response. -/
theorem navigationFallbackChain (env : NavEnv)
    (h : navigationRace env = Except.error ()) :
    (navigationRespond env).response =
      (match env.cachedResponse with
       | some c => c
       | none =>
         match env.offlinePage with
         | some o => o
         | none => offlineResponse) := by
  simp [navigationRespond, h]

theorem navigationFallbackChain_witness :
    (navigationRespond ⟨none, some offlinePageEx, Except.error (), true, true⟩).response =
      (match (NavEnv.mk none (some offlinePageEx) (Except.error ()) true true).cachedResponse with
       | some c => c
       | none =>
         match (NavEnv.mk none (some offlinePageEx) (Except.error ()) true true).offlinePage with
         | some o => o
         | none => offlineResponse) :=
  navigationFallbackChain ⟨none, some offlinePageEx, Except.error (), true, true⟩ rfl

/-- Claim C2 (counterexample): in the hashed-asset branch the cache `put`
sits inside the same try as the fetch, so on a successful fetch whose
store fails the catch returns the synthesized 503 instead of the
already-fetched response. -/
theorem hashedCacheWriteFailureYields503 :
    isHashedAsset hashedUrlEx = true ∧
    (hashedAssetRespond [] hashedUrlEx (Except.ok cssResponseEx) false).response =
      networkErrorResponse ∧
    (hashedAssetRespond [] hashedUrlEx (Except.ok cssResponseEx) false).response ≠
      cssResponseEx := by
  decide

/-- Claim C2 (amended): a post-fetch cache-write failure is only logged and
the fetched response still returned in the navigation and generic
strategies; in the immutable-asset strategy, however, a write failure is
caught by the shared fetch catch and a synthesized 503 replaces the
fetched response. -/
theorem cacheWriteFailureOnlyLoggedExceptHashed :
    (∀ (env : NavEnv) (r : Response), navigationRace env = Except.ok r →
        (navigationRespond env).response = r) ∧
    (∀ (url : String) (env : GenericEnv) (r : Response),
        env.networkResult = Except.ok r →
        (genericRespond url env).response =
          (match env.cachedResponse with
           | some c => c
           | none => r)) ∧
    (∀ (cache : List (String × Response)) (url : String) (r : Response),
        lookupCache cache url = none →
        (hashedAssetRespond cache url (Except.ok r) false).response =
          networkErrorResponse) := by
  refine ⟨?_, ?_, ?_⟩
  · intro env r h
    simp [navigationRespond, h]
  · intro url env r h
    cases hc : env.cachedResponse <;> simp [genericRespond, h, hc]
  · intro cache url r h
    simp [hashedAssetRespond, h]

theorem cacheWriteFailureOnlyLoggedExceptHashed_witness :
    (navigationRespond ⟨some pageResponseEx, none, Except.ok freshPageEx, true, false⟩).response =
      freshPageEx ∧
    (genericRespond "/style.css" ⟨none, Except.ok cssResponseEx, false⟩).response =
      (match (GenericEnv.mk none (Except.ok cssResponseEx) false).cachedResponse with
       | some c => c
       | none => cssResponseEx) ∧
    (hashedAssetRespond [] hashedUrlJsEx (Except.ok cssResponseEx) false).response =
      networkErrorResponse :=
  ⟨cacheWriteFailureOnlyLoggedExceptHashed.1
      ⟨some pageResponseEx, none, Except.ok freshPageEx, true, false⟩ freshPageEx rfl,
   cacheWriteFailureOnlyLoggedExceptHashed.2.1 "/style.css"
      ⟨none, Except.ok cssResponseEx, false⟩ cssResponseEx rfl,
   cacheWriteFailureOnlyLoggedExceptHashed.2.2 [] hashedUrlJsEx cssResponseEx rfl⟩

/-- Claim C6: an intercepted same-origin GET request for a hashed-asset URL
is dispatched to the immutable-asset strategy; with a cached entry the
strategy returns it with zero fetches and an unchanged cache, and after
a first successful fetch-and-store a second interception performs zero
fetches and returns the stored response. -/
theorem hashedAssetCacheFirst :
    (∀ (req : Request), req.sameOrigin = true → req.method = "GET" →
        isNavigationRequest req = false → isHashedAsset req.url = true →
        chooseStrategy req = Strategy.immutableAsset) ∧
    (∀ (cache : List (String × Response)) (url : String) (r : Response)
        (net : Except Unit Response) (w : Bool),
        isHashedAsset url = true → lookupCache cache url = some r →
        hashedAssetRespond cache url net w = ⟨r, cache, 0⟩) ∧
    (∀ (cache : List (String × Response)) (url : String) (r : Response)
        (net : Except Unit Response) (w : Bool),
        isHashedAsset url = true → lookupCache cache url = none →
        (hashedAssetRespond cache url (Except.ok r) true).fetchCount = 1 ∧
        hashedAssetRespond (hashedAssetRespond cache url (Except.ok r) true).cache url net w =
          ⟨r, (hashedAssetRespond cache url (Except.ok r) true).cache, 0⟩) := by
  refine ⟨?_, ?_, ?_⟩
  · intro req hs hm hn hh
    simp [chooseStrategy, hs, hm, hn, hh]
  · intro cache url r net w _ hl
    simp [hashedAssetRespond, hl]
  · intro cache url r net w _ hl
    have hc : (hashedAssetRespond cache url (Except.ok r) true).cache = cachePut cache url r := by
      simp [hashedAssetRespond, hl]
    refine ⟨by simp [hashedAssetRespond, hl], ?_⟩
    rw [hc]
    simp [hashedAssetRespond, lookupCache_cachePut]

theorem hashedAssetCacheFirst_witness :
    chooseStrategy ⟨hashedUrlJsEx, "GET", "no-cors", "*/*", true⟩ = Strategy.immutableAsset ∧
    hashedAssetRespond [(hashedUrlJsEx, cssResponseEx)] hashedUrlJsEx (Except.error ()) true =
      ⟨cssResponseEx, [(hashedUrlJsEx, cssResponseEx)], 0⟩ ∧
    (hashedAssetRespond [] hashedUrlJsEx (Except.ok cssResponseEx) true).fetchCount = 1 ∧
    hashedAssetRespond (hashedAssetRespond [] hashedUrlJsEx (Except.ok cssResponseEx) true).cache
        hashedUrlJsEx (Except.error ()) true =
      ⟨cssResponseEx, (hashedAssetRespond [] hashedUrlJsEx (Except.ok cssResponseEx) true).cache, 0⟩ :=
  ⟨hashedAssetCacheFirst.1 ⟨hashedUrlJsEx, "GET", "no-cors", "*/*", true⟩ rfl rfl
      (by decide) (by decide),
   hashedAssetCacheFirst.2.1 [(hashedUrlJsEx, cssResponseEx)] hashedUrlJsEx cssResponseEx
      (Except.error ()) true (by decide) (by decide),
   hashedAssetCacheFirst.2.2 [] hashedUrlJsEx cssResponseEx (Except.error ()) true
      (by decide) rfl⟩

theorem broadcastPrecedesClaim_concat (ds : List String) (tail : List SWEvent) :
    broadcastPrecedesClaim (ds.map SWEvent.cacheDeleted ++ SWEvent.clientsClaimed :: tail) =
      false := by
  induction ds with
  | nil => rfl
  | cons d ds ih => simpa [broadcastPrecedesClaim] using ih

theorem notifyClients_noDeletes (clientUrls : List String) :
    (notifyClients clientUrls).any isDeletedEvent = false := by
  induction clientUrls with
  | nil => rfl
  | cons u us ih => simp [notifyClients, isDeletedEvent, ih]

theorem deletionFollowsClaim_concat (ds clientUrls : List String) :
    deletionFollowsClaim
      (ds.map SWEvent.cacheDeleted ++ SWEvent.clientsClaimed :: notifyClients clientUrls) =
      false := by
  induction ds with
  | nil => simpa [deletionFollowsClaim] using notifyClients_noDeletes clientUrls
  | cons d ds ih => simpa [deletionFollowsClaim] using ih

theorem postedCountFor_notifyClients (c : String) (clientUrls : List String) :
    postedCountFor c (notifyClients clientUrls) = clientUrls.count c := by
  induction clientUrls with
  | nil => rfl
  | cons u us ih =>
      by_cases h : u = c
      · subst h
        simp [postedCountFor, notifyClients, List.countP_cons, List.count_cons] at ih ⊢
        omega
      · simp [postedCountFor, notifyClients, List.countP_cons, List.count_cons, h] at ih ⊢
        exact ih

theorem postedCountFor_concat (c : String) (ds : List String) (tail : List SWEvent) :
    postedCountFor c (ds.map SWEvent.cacheDeleted ++ SWEvent.clientsClaimed :: tail) =
      postedCountFor c tail := by
  induction ds with
  | nil => simp [postedCountFor, List.countP_cons]
  | cons d ds ih => simp [postedCountFor, List.countP_cons, ih]

/-- Claim C8 (counterexample): in the activate handler `clients.claim()` is
awaited BEFORE `notifyClients()`, so the `SW_UPDATED` broadcast does not
precede the claim: the concrete trace contains both events with the
claim first. -/
theorem broadcastDoesNotPrecedeClaim :
    (activateTrace [assetCacheName] [clientUrlEx]).contains SWEvent.clientsClaimed = true ∧
    (activateTrace [assetCacheName] [clientUrlEx]).contains
      (SWEvent.posted clientUrlEx swUpdatedCommand swVersion) = true ∧
    broadcastPrecedesClaim (activateTrace [assetCacheName] [clientUrlEx]) = false := by
  decide

/-- Claim C8 (amended): every activation runs garbage collection to
completion first, then claims clients, and only then broadcasts
`SW_UPDATED` (with the version derived from the assets cache name) —
no broadcast precedes the claim, no deletion follows it, and each open
client receives exactly one message per occurrence in the client list. -/
theorem activateOrdering (existing clientUrls : List String) :
    broadcastPrecedesClaim (activateTrace existing clientUrls) = false ∧
    deletionFollowsClaim (activateTrace existing clientUrls) = false ∧
    SWEvent.clientsClaimed ∈ activateTrace existing clientUrls ∧
    ∀ c, postedCountFor c (activateTrace existing clientUrls) = clientUrls.count c := by
  refine ⟨broadcastPrecedesClaim_concat _ _, deletionFollowsClaim_concat _ _, ?_, ?_⟩
  · simp [activateTrace]
  · intro c
    rw [activateTrace, postedCountFor_concat, postedCountFor_notifyClients]

theorem listStartsWith_append (pat : List Char) :
    ∀ (cs ys : List Char), listStartsWith pat cs = true →
      listStartsWith pat (cs ++ ys) = true := by
  induction pat with
  | nil => intro cs ys _; rfl
  | cons p ps ih =>
      intro cs ys h
      cases cs with
      | nil => simp [listStartsWith] at h
      | cons c cs =>
          simp [listStartsWith] at h ⊢
          exact ⟨h.1, ih cs ys h.2⟩

theorem imageExtAfterDot_append (cs ys : List Char)
    (h : imageExtAfterDot cs = true) : imageExtAfterDot (cs ++ ys) = true := by
  simp only [imageExtAfterDot, Bool.or_eq_true] at h ⊢
  rcases h with ⟨⟨⟨⟨h | h⟩ | h⟩ | h⟩ | h⟩ | h
  · exact Or.inl (Or.inl (Or.inl (Or.inl (Or.inl (listStartsWith_append _ _ _ h)))))
  · exact Or.inl (Or.inl (Or.inl (Or.inl (Or.inr (listStartsWith_append _ _ _ h)))))
  · exact Or.inl (Or.inl (Or.inl (Or.inr (listStartsWith_append _ _ _ h))))
  · exact Or.inl (Or.inl (Or.inr (listStartsWith_append _ _ _ h)))
  · exact Or.inl (Or.inr (listStartsWith_append _ _ _ h))
  · exact Or.inr (listStartsWith_append _ _ _ h)

theorem isImageUrlAux_append (cs ys : List Char)
    (h : isImageUrlAux cs = true) : isImageUrlAux (cs ++ ys) = true := by
  induction cs with
  | nil => simp [isImageUrlAux] at h
  | cons c cs ih =>
      simp [isImageUrlAux] at h ⊢
      rcases h with ⟨h1, h2⟩ | h
      · exact Or.inl ⟨h1, imageExtAfterDot_append cs ys h2⟩
      · exact Or.inr (ih h)

theorem isImageUrlAux_eq_spec (cs : List Char) :
    isImageUrlAux cs =
      (occursIn patDotJpg cs || occursIn patDotJpeg cs || occursIn patDotPng cs ||
       occursIn patDotGif cs || occursIn patDotSvg cs || occursIn patDotWebp cs) := by
  induction cs with
  | nil => rfl
  | cons c cs ih =>
      simp only [isImageUrlAux, occursIn, ih]
      by_cases h : c = '.'
      · subst h
        simp only [patDotJpg, patDotJpeg, patDotPng, patDotGif, patDotSvg, patDotWebp,
          listStartsWith, imageExtAfterDot, extJpg, extJpeg, extPng, extGif, extSvg,
          extWebp, beq_self_eq_true, Bool.true_and]
        rw [Bool.eq_iff_iff]
        simp only [Bool.or_eq_true, Bool.and_eq_true]
        tauto
      · have hc : (c == '.') = false := by
          simp [beq_iff_eq]
          exact h
        have hc' : ('.' == c) = false := by
          simp [beq_iff_eq]
          exact fun e => h e.symm
        simp only [patDotJpg, patDotJpeg, patDotPng, patDotGif, patDotSvg, patDotWebp,
          listStartsWith, hc, hc', Bool.false_and, Bool.false_or]

/-- Claim C10: the image test used by the generic strategy matches whenever
one of `.jpg` `.jpeg` `.png` `.gif` `.svg` `.webp` occurs anywhere in the
URL (unanchored — it survives appending any tail), and that single test
decides both the store-into-images choice on fetch success and the
placeholder-versus-503 choice on total failure. -/
theorem imageTestUnanchoredAndShared :
    (∀ url : String, isImageUrl url = isImageUrlSpec url) ∧
    (∀ u v : String, isImageUrl u = true → isImageUrl (u ++ v) = true) ∧
    (∀ (url : String) (env : GenericEnv) (r : Response),
        env.networkResult = Except.ok r →
        (genericRespond url env).storedToImages = (isImageUrl url && env.cacheWriteOk)) ∧
    (∀ (url : String) (env : GenericEnv), env.cachedResponse = none →
        env.networkResult = Except.error () →
        (genericRespond url env).response =
          (if isImageUrl url then placeholderResponse else networkErrorResponse)) := by
  refine ⟨?_, ?_, ?_, ?_⟩
  · intro url
    exact isImageUrlAux_eq_spec url.data
  · intro u v h
    rw [isImageUrl, String.data_append]
    exact isImageUrlAux_append u.data v.data h
  · intro url env r h
    cases hc : env.cachedResponse <;> simp [genericRespond, h, hc]
  · intro url env h hn
    cases hi : isImageUrl url <;> simp [genericRespond, h, hn, hi]

theorem imageTestUnanchoredAndShared_witness :
    isImageUrl "/cover.png" = isImageUrlSpec "/cover.png" ∧
    isImageUrl ("/cover.png" ++ "?width=240") = true ∧
    (genericRespond "/cover.png" ⟨none, Except.ok freshPageEx, true⟩).storedToImages =
      (isImageUrl "/cover.png" && (GenericEnv.mk none (Except.ok freshPageEx) true).cacheWriteOk) ∧
    (genericRespond "/cover.png" ⟨none, Except.error (), true⟩).response =
      (if isImageUrl "/cover.png" then placeholderResponse else networkErrorResponse) :=
  ⟨imageTestUnanchoredAndShared.1 "/cover.png",
   imageTestUnanchoredAndShared.2.1 "/cover.png" "?width=240" (by decide),
   imageTestUnanchoredAndShared.2.2.1 "/cover.png" ⟨none, Except.ok freshPageEx, true⟩
      freshPageEx rfl,
   imageTestUnanchoredAndShared.2.2.2 "/cover.png" ⟨none, Except.error (), true⟩ rfl rfl⟩

end SW
